import Mathlib

/-!
Shallow embedding of the weak-signals bibliometric pipeline
(`src/processing/metrics.py`, `src/analysis/signal_maps.py`,
`src/features/dov.py`, `src/features/kem.py`,
`src/features/signal_validation.py`, `src/scripts/run_w_experiment.py`,
`src/scripts/run_signal_validation.py`).

Conventions of the embedding:
* Python floats are modelled as exact real numbers `ℝ` (exact rationals
  where they occur as literals); counting code is modelled over `ℕ`.
* pandas DataFrames are modelled as records holding an explicit row index,
  an explicit column-label list, and a cell function.
* In-place mutation of a DataFrame argument is modelled by returning the
  post-call state of that argument alongside the ordinary return value.
-/

/-! ### Generic list helpers (insertion sort keyed by a Boolean `le`) -/

def insertLe {α : Type} (le : α → α → Bool) (x : α) : List α → List α
  | [] => [x]
  | y :: ys => if le x y then x :: y :: ys else y :: insertLe le x ys

def sortLe {α : Type} (le : α → α → Bool) (l : List α) : List α :=
  l.foldr (insertLe le) []

def strLe (s t : String) : Bool := decide (s ≤ t)

def natLe (a b : Nat) : Bool := decide (a ≤ b)

/-! ### Text normalizer — `_standardize_text` in `src/processing/metrics.py`.

`_standardize_text` lower-cases, strips every character that is not a
lowercase letter / digit / whitespace, splits on whitespace and lemmatizes
each token.  The NLTK `WordNetLemmatizer` is an external resource, so the
embedding is parametrized by an arbitrary per-token `lemmatize` function. -/

def pySplit (s : String) : List String :=
  (s.split Char.isWhitespace).filter (fun t => t ≠ "")

def keepChar (c : Char) : Bool :=
  (decide ('a' ≤ c) && decide (c ≤ 'z')) ||
  (decide ('0' ≤ c) && decide (c ≤ '9')) ||
  c.isWhitespace

def cleanText (s : String) : String :=
  String.mk (s.data.filter keepChar)

def standardize_text (lemmatize : String → String) (text : String) : List String :=
  if text.trim = "" then []
  else (pySplit (cleanText text.toLower)).map lemmatize

/-! ### N-gram matcher / frequency counter
(`calculate_term_frequencies`, `calculate_document_frequencies` in
`src/processing/metrics.py`). -/

/-- Contiguous `n`-token windows of a list: `nltk.util.ngrams`. -/
def windows {α : Type} (l : List α) (n : Nat) : List (List α) :=
  (List.range (l.length + 1 - n)).map (fun i => (l.drop i).take n)

/-- Model of `' '.join(sorted(ngram_tuple))` — the "standardized n-gram". -/
def standardizedNgram (gram : List String) : String :=
  String.intercalate " " (sortLe strLe gram)

/-- Model of the set of distinct keyword phrase lengths, sorted. -/
def keywordLengths (keyword_list : List String) : List Nat :=
  sortLe natLe ((keyword_list.map (fun k => (pySplit k).length)).dedup)

/-- All standardized n-grams of one document that are in the vocabulary,
with multiplicity, across every phrase length of the vocabulary.
This is the stream of `tf_df.loc[...] += 1` increments of the source. -/
def docMatchList (keywords_set : List String) (lengths : List Nat)
    (tokens : List String) : List String :=
  (lengths.map (fun n =>
    if tokens.length ≥ n then
      ((windows tokens n).map standardizedNgram).filter
        (fun s => keywords_set.contains s)
    else [])).flatten

structure Paper where
  published : Int
  full_text : String

/-- A pandas frequency table: row index (keywords), year columns, ℕ cells
keyed by (keyword, year). -/
structure FreqTable where
  rows : List String
  cols : List Int
  cell : String → Int → Nat

/-- Embedding of `calculate_term_frequencies` (metrics.py lines 25–56): one row per
vocabulary keyword (sorted), one column per given year; each cell counts
every matching standardized n-gram occurrence of the keyword in that
year's documents. -/
def calculate_term_frequencies (lemmatize : String → String)
    (df_papers : List Paper) (keywords_set : List String)
    (years : List Int) : FreqTable :=
  let keyword_list := sortLe strLe keywords_set.dedup
  let lengths := keywordLengths keyword_list
  { rows := keyword_list
    cols := years
    cell := fun k year =>
      (((df_papers.filter (fun p => p.published == year)).map
        (fun p =>
          (docMatchList keywords_set lengths
            (standardize_text lemmatize p.full_text)).count k)).sum) }

/-- Embedding of `calculate_document_frequencies` (metrics.py lines 58–93): like TF but
each document contributes at most once per keyword (`found_in_this_paper`
is a set). -/
def calculate_document_frequencies (lemmatize : String → String)
    (df_papers : List Paper) (keywords_set : List String)
    (years : List Int) : FreqTable :=
  let keyword_list := sortLe strLe keywords_set.dedup
  let lengths := keywordLengths keyword_list
  { rows := keyword_list
    cols := years
    cell := fun k year =>
      (((df_papers.filter (fun p => p.published == year)).map
        (fun p =>
          let found_in_this_paper :=
            (docMatchList keywords_set lengths
              (standardize_text lemmatize p.full_text)).dedup
          if found_in_this_paper.contains k then 1 else 0)).sum) }

/-! ### Cross-validator cells.

`src/scripts/run_signal_validation.py` (`_validate_signals`) assigns, per
period and per keyword row: default `"Not Validated"`; rows where the KEM
and KIM categories match get the KEM value; rows where KEM *and* KIM are
both `"Not Present"` get `"Not Present"`.  The masked column assignments
act independently on each row, so the embedding is per-cell. -/

def validated_signal_cell (kem kim : String) : String :=
  let v := "Not Validated"
  let v := if kem == kim then kem else v
  let v := if kem == "Not Present" && kim == "Not Present" then "Not Present" else v
  v

/-- Embedding of `src/features/signal_validation.py` lines 37–45 (the legacy standalone
script): same first two assignments, but the final mask checks only the
KEM column (`df_merged[kem_col] == "Not Present"`). -/
def legacy_validated_signal_cell (kem kim : String) : String :=
  let v := "Not Validated"
  let v := if kem == kim then kem else v
  let v := if kem == "Not Present" then "Not Present" else v
  v

/-! ### Report filters (`run_signal_validation.py` lines 92–106). -/

structure SignalRow where
  keyword : String
  validated_signal_P1 : String
  validated_signal_P2 : String
  validated_signal_P3 : String
deriving DecidableEq

def non_signal_statuses : List String := ["Not Validated", "Not Present"]

def high_impact_statuses : List String := ["Weak Signal", "Strong Signal"]

/-- Embedding of `df_all_validated`: keep rows whose validated category is outside
`non_signal_statuses` in at least one period. -/
def df_all_validated (df_final : List SignalRow) : List SignalRow :=
  df_final.filter (fun r =>
    !(non_signal_statuses.contains r.validated_signal_P1) ||
    !(non_signal_statuses.contains r.validated_signal_P2) ||
    !(non_signal_statuses.contains r.validated_signal_P3))

/-- Embedding of `df_high_impact`: filter `df_all_validated` further to rows with a
`"Weak Signal"` or `"Strong Signal"` verdict in at least one period. -/
def df_high_impact (df_final : List SignalRow) : List SignalRow :=
  (df_all_validated df_final).filter (fun r =>
    high_impact_statuses.contains r.validated_signal_P1 ||
    high_impact_statuses.contains r.validated_signal_P2 ||
    high_impact_statuses.contains r.validated_signal_P3)

/-! ### Time-weighted score calculator
(`calculate_dov`, `calculate_dod` in `src/processing/metrics.py`).
Numeric DataFrames with integer year columns are modelled with positional
cells (row position, column position), matching how the source fills one
whole column per loop iteration. -/

/-- A numeric pandas table: row index (keywords), integer year columns,
real cells addressed by (row position, column position). -/
structure RTable where
  index : List String
  cols : List Int
  cell : Nat → Nat → ℝ

/-- Model of `time_weight = (1 - w_value * (N - j))` for the 1-based column
position `j` out of `N` columns. -/
noncomputable def timeWeight (w_value : ℝ) (N j : Nat) : ℝ :=
  1 - w_value * ((N : ℝ) - (j : ℝ))

/-- Embedding of `calculate_dov` (metrics.py lines 95–111): per column `j` (1-based),
the column is forced to 0 when the year's document count is 0, otherwise
`(TF / Nj) * time_weight`. -/
noncomputable def calculate_dov (tf_df : RTable) (doc_counts : Int → ℝ)
    (w_value : ℝ) : RTable :=
  let N := tf_df.cols.length
  { index := tf_df.index
    cols := tf_df.cols
    cell := fun i j =>
      let year := tf_df.cols.getD j 0
      let Nj := doc_counts year
      if Nj = 0 then 0
      else (tf_df.cell i j / Nj) * timeWeight w_value N (j + 1) }

/-- Embedding of `calculate_dod` (metrics.py lines 113–129): identical shape, applied
to the DF table. -/
noncomputable def calculate_dod (df_df : RTable) (doc_counts : Int → ℝ)
    (w_value : ℝ) : RTable :=
  let N := df_df.cols.length
  { index := df_df.index
    cols := df_df.cols
    cell := fun i j =>
      let year := df_df.cols.getD j 0
      let Nj := doc_counts year
      if Nj = 0 then 0
      else (df_df.cell i j / Nj) * timeWeight w_value N (j + 1) }

/-- The decay-parameter candidate list
(`W_VALUES_TO_TEST = [0.025, 0.05, 0.075, 0.1]` in `src/features/dov.py`,
`dov_w_value_to_test` in the configuration). -/
noncomputable def W_VALUES_TO_TEST : List ℝ := [0.025, 0.05, 0.075, 0.1]

/-! ### Parameter optimizer (`find_optimal_w` in
`src/scripts/run_w_experiment.py`). -/

/-- Model of `scipy.stats.gmean`: geometric mean `(∏ xs) ^ (1 / n)`. -/
noncomputable def gmean (xs : List ℝ) : ℝ :=
  xs.prod ^ ((xs.length : ℝ))⁻¹

/-- Model of the `numpy` arithmetic mean. -/
noncomputable def npMean (xs : List ℝ) : ℝ := xs.sum / xs.length

/-- Model of `numpy.std`: population standard deviation. -/
noncomputable def npStd (xs : List ℝ) : ℝ :=
  Real.sqrt (npMean (xs.map (fun x => (x - npMean xs) ^ 2)))

/-- Model of `gmean(dov_df + 1e-10, axis=1)`: one per-keyword geometric mean over
the year columns, the constant 1e-10 added to every cell first. -/
noncomputable def growth_rates (t : RTable) : List ℝ :=
  (List.range t.index.length).map (fun i =>
    gmean ((List.range t.cols.length).map (fun j => t.cell i j + 1e-10)))

/-- Embedding of `find_optimal_w` (run_w_experiment.py lines 11–30): for each candidate
`w` compute the DoV table, the per-keyword growth rates and their
population standard deviation; keep the candidate whose standard deviation
is strictly greater than the best seen so far (initialized to −1).
Returns `(best_w, best_dov_df)`. -/
noncomputable def find_optimal_w (tf_df : RTable) (doc_counts : Int → ℝ)
    (w_values : List ℝ) : Option ℝ × Option RTable :=
  let r := w_values.foldl
    (fun (st : Option ℝ × ℝ × Option RTable) w =>
      let dov_df := calculate_dov tf_df doc_counts w
      let current_std_dev := npStd (growth_rates dov_df)
      if current_std_dev > st.2.1 then (some w, current_std_dev, some dov_df)
      else st)
    (none, -1, none)
  (r.1, r.2.2)

/-! ### Signal map builder (`src/analysis/signal_maps.py`). -/

/-- A pandas column label: either a string (as read from CSV) or an
integer (after `columns.astype(int)`). -/
inductive Lbl where
  | str (s : String)
  | int (n : Int)
deriving DecidableEq

/-- Model of `Index.astype(int)` on one label; Python parses the digits of a string
label (the pipeline's labels are year strings such as `"2010"`). -/
def astypeInt : Lbl → Lbl
  | .str s => .int ((s.trim.toInt?).getD 0)
  | .int n => .int n

/-- A pandas DataFrame as handled by `generate_signal_map_data`: row
index, column labels that may be strings or integers, positional cells. -/
structure PFrame where
  index : List String
  cols : List Lbl
  cell : Nat → Nat → ℝ

/-- Embedding of `_categorize_signal` (signal_maps.py lines 12–24, identical to
`categorize_keyword` in `src/features/kem.py` lines 76–89): quadrant rule
with `>=` comparisons against the two medians. -/
noncomputable def _categorize_signal (axis_x axis_y median_x median_y : ℝ) :
    String :=
  let is_above_median_x := decide (axis_x ≥ median_x)
  let is_above_median_y := decide (axis_y ≥ median_y)
  if is_above_median_x && is_above_median_y then "Strong Signal"
  else if !is_above_median_x && is_above_median_y then "Weak Signal"
  else if !is_above_median_x && !is_above_median_y then "Latent Signal"
  else "Well-known but not strong"

/-- Model of `pandas.Series.median`: middle of the sorted values, the mean of the
two middle values for an even count. -/
noncomputable def pdMedian (xs : List ℝ) : ℝ :=
  let s := sortLe (fun a b => decide (a ≤ b)) xs
  let n := s.length
  if n % 2 = 1 then s.getD (n / 2) 0
  else (s.getD (n / 2 - 1) 0 + s.getD (n / 2) 0) / 2

/-- One iteration of the period loop of `generate_signal_map_data`.  The
loop state is (accumulated `(all_period_data, period_short_names)`,
current state of `df_x`, current state of `df_y`). -/
noncomputable def generate_signal_map_step
    (st : (List (String × List (String × ℝ × ℝ × String))
      × List (String × String)) × PFrame × PFrame)
    (p : String × Int × Int) :
    (List (String × List (String × ℝ × ℝ × String)) × List (String × String))
      × PFrame × PFrame :=
  let period_key := p.1
  let period_name :=
    period_key ++ " (" ++ toString p.2.1 ++ "-" ++ toString (p.2.2 - 1) ++ ")"
  let years : List Int :=
    (List.range (p.2.2 - p.2.1).toNat).map (fun t => p.2.1 + t)
  let dx := { st.2.1 with cols := st.2.1.cols.map astypeInt }
  let dy := { st.2.2 with cols := st.2.2.cols.map astypeInt }
  let xcol := fun (y : Int) => dx.cols.indexOf (Lbl.int y)
  let ycol := fun (y : Int) => dy.cols.indexOf (Lbl.int y)
  let avg_x := fun (i : Nat) => npMean (years.map (fun y => dx.cell i (xcol y)))
  let growth_y := fun (i : Nat) =>
    gmean (years.map (fun y => dy.cell i (ycol y) + 1e-10))
  let df_map0 : List (String × ℝ × ℝ) :=
    (List.range dx.index.length).map
      (fun i => (dx.index.getD i "", avg_x i, growth_y i))
  let df_map1 := df_map0.filter
    (fun r => decide (r.2.1 > 0) && decide (r.2.2 > 1e-10))
  let entry :=
    if df_map1 = [] then []
    else
      let median_x := pdMedian (df_map1.map (fun r => r.2.1))
      let median_y := pdMedian (df_map1.map (fun r => r.2.2))
      [(period_name, df_map1.map (fun r =>
        (r.1, r.2.1, r.2.2, _categorize_signal r.2.1 r.2.2 median_x median_y)))]
  ((st.1.1 ++ entry, st.1.2 ++ [(period_name, period_key.toUpper)]), dx, dy)

/-- Embedding of `generate_signal_map_data` (signal_maps.py lines 26–91).  A period is
`(key, start, end)` with years `start, ..., end - 1`.  Each iteration
*reassigns the column labels of both input DataFrames in place*
(`df_x.columns = df_x.columns.astype(int)`), so the embedding threads the
states of `df_x` and `df_y` through the loop and returns them last.
Output rows are `(keyword, axis_x, axis_y, category)`; a period whose
filtered map is empty contributes a short name but no data entry
(`continue`). -/
noncomputable def generate_signal_map_data (df_x df_y : PFrame)
    (periods : List (String × Int × Int)) :
    (List (String × List (String × ℝ × ℝ × String)) × List (String × String))
      × PFrame × PFrame :=
  periods.foldl generate_signal_map_step (([], []), df_x, df_y)

/-! ### Evolution consolidator (`create_evolution_file` in
`src/analysis/signal_maps.py` lines 148–170, matching the consolidation in
`src/features/kem.py` lines 175–197). -/

/-- One period's signal map as consumed by the consolidator: its keyword
index and its `category` column. -/
structure PeriodMap where
  index : List String
  category : String → String

/-- Model of `pandas.Index.union`: sorted union without duplicates. -/
def indexUnion (a b : List String) : List String :=
  sortLe strLe ((a ++ b).dedup)

/-- The consolidated evolution table: keyword index, one column name per
period, string cells. -/
structure Evolution where
  index : List String
  cols : List String
  cell : String → String → String

/-- Embedding of `create_evolution_file`: union all period indices; per period, join
its `category` column (renamed `pre ++ "_" ++ short_name`) onto the
master index; cells left empty by the join become `"Not Present"`. -/
def create_evolution_file (all_period_data : List (String × PeriodMap))
    (period_short_names : String → String) (pre : String) : Evolution :=
  let all_keywords_index :=
    all_period_data.foldl (fun acc p => indexUnion acc p.2.index) []
  { index := all_keywords_index
    cols := all_period_data.map
      (fun p => pre ++ "_" ++ period_short_names p.1)
    cell := fun k col =>
      match all_period_data.find?
          (fun p => pre ++ "_" ++ period_short_names p.1 == col) with
      | some p => if p.2.index.contains k then p.2.category k else "Not Present"
      | none => "Not Present" }

/-! ### Concrete inputs used by witnesses and counterexamples. -/

noncomputable def tfW : RTable :=
  { index := ["k"], cols := [2020, 2021], cell := fun _ _ => 1 }

noncomputable def dcW : Int → ℝ := fun y => if y = 2020 then 0 else 2

def pmW1 : PeriodMap := { index := ["alpha"], category := fun _ => "Weak Signal" }

def pmW2 : PeriodMap := { index := ["beta"], category := fun _ => "Latent Signal" }

def evolDataW : List (String × PeriodMap) := [("P1", pmW1), ("P2", pmW2)]

def rowW : SignalRow :=
  { keyword := "kw", validated_signal_P1 := "Weak Signal",
    validated_signal_P2 := "Not Validated", validated_signal_P3 := "Not Present" }

noncomputable def dfxW : PFrame :=
  { index := ["k"], cols := [Lbl.str "2010"], cell := fun _ _ => 1 }

noncomputable def dfyW : PFrame :=
  { index := ["k"], cols := [Lbl.str "2010"], cell := fun _ _ => 1 }

def periodsW : List (String × Int × Int) := [("p1", 2010, 2011)]

/-! ### Helper lemmas about the insertion sort. -/

theorem insertLe_perm {α : Type} (le : α → α → Bool) (x : α) (l : List α) :
    List.Perm (insertLe le x l) (x :: l) := by
  induction l with
  | nil => exact List.Perm.refl _
  | cons y ys ih =>
    simp only [insertLe]
    by_cases h : le x y
    · simp [h]
    · simp only [h, if_neg, Bool.false_eq_true, not_false_eq_true]
      exact (ih.cons y).trans (List.Perm.swap x y ys)

theorem sortLe_perm {α : Type} (le : α → α → Bool) (l : List α) :
    List.Perm (sortLe le l) l := by
  induction l with
  | nil => exact List.Perm.refl _
  | cons x xs ih => exact (insertLe_perm le x (sortLe le xs)).trans (ih.cons x)

theorem mem_sortLe {α : Type} (le : α → α → Bool) (l : List α) (a : α) :
    a ∈ sortLe le l ↔ a ∈ l :=
  (sortLe_perm le l).mem_iff

theorem nodup_sortLe {α : Type} (le : α → α → Bool) (l : List α)
    (h : l.Nodup) : (sortLe le l).Nodup :=
  ((sortLe_perm le l).nodup_iff).mpr h

/-! ### Claim theorems. -/

/-- C2 (code evaluation at the failing input): the legacy validation loop
in `src/features/signal_validation.py` yields `"Not Present"` for a
keyword whose KEM category is `"Not Present"` while its KIM category is
`"Strong Signal"`, whereas the claim (and `_validate_signals` in
`src/scripts/run_signal_validation.py`, characterized by the second
conjunct) requires `"Not Validated"` there. -/
theorem C2_validation_verdict :
    legacy_validated_signal_cell "Not Present" "Strong Signal" = "Not Present" ∧
    (∀ kem kim : String,
      validated_signal_cell kem kim = if kem = kim then kem else "Not Validated") := by
  constructor
  · rfl
  · intro kem kim
    by_cases h : kem = kim
    · subst h
      by_cases hnp : kem = "Not Present" <;>
        simp [validated_signal_cell, hnp]
    · by_cases h1 : kem = "Not Present" <;> by_cases h2 : kim = "Not Present"
      · exact absurd (h1.trans h2.symm) h
      all_goals simp [validated_signal_cell, h, h1, h2]

/-- C3: the quadrant classifier always produces exactly one of the four
labels, determined by the sign combination of `x ≥ median_x` and
`y ≥ median_y`, and a row exactly at `(median_x, median_y)` is classified
`"Strong Signal"`. -/
theorem C3_quadrant_classifier (x mx y my : ℝ) :
    _categorize_signal x y mx my ∈
      ["Strong Signal", "Weak Signal", "Latent Signal",
        "Well-known but not strong"] ∧
    _categorize_signal x y mx my =
      (if x ≥ mx then
        (if y ≥ my then "Strong Signal" else "Well-known but not strong")
       else
        (if y ≥ my then "Weak Signal" else "Latent Signal")) ∧
    _categorize_signal mx my mx my = "Strong Signal" := by
  refine ⟨?_, ?_, ?_⟩
  · by_cases hx : x ≥ mx <;> by_cases hy : y ≥ my <;>
      simp [_categorize_signal, hx, hy]
  · by_cases hx : x ≥ mx <;> by_cases hy : y ≥ my <;>
      simp [_categorize_signal, hx, hy]
  · simp [_categorize_signal, le_refl]

/-- C4: for every corpus, vocabulary, keyword and year, the DF cell never
exceeds the TF cell on the same inputs, the DF cell never exceeds the
number of documents of that year, and both are nonnegative. -/
theorem C4_df_le_tf (lemmatize : String → String) (df_papers : List Paper)
    (keywords_set : List String) (years : List Int) (k : String) (y : Int) :
    (calculate_document_frequencies lemmatize df_papers keywords_set years).cell k y ≤
      (calculate_term_frequencies lemmatize df_papers keywords_set years).cell k y ∧
    (calculate_document_frequencies lemmatize df_papers keywords_set years).cell k y ≤
      (df_papers.filter (fun p => p.published == y)).length ∧
    0 ≤ (calculate_document_frequencies lemmatize df_papers keywords_set years).cell k y := by
  refine ⟨?_, ?_, Nat.zero_le _⟩
  · simp only [calculate_document_frequencies, calculate_term_frequencies]
    apply List.sum_le_sum
    intro p _
    by_cases hk :
        k ∈ (docMatchList keywords_set
          (keywordLengths (sortLe strLe keywords_set.dedup))
          (standardize_text lemmatize p.full_text))
    · have h1 : ((docMatchList keywords_set
          (keywordLengths (sortLe strLe keywords_set.dedup))
          (standardize_text lemmatize p.full_text)).dedup).contains k = true := by
        simp [List.mem_dedup, hk]
      simp only [h1, if_true]
      exact List.count_pos_iff.mpr hk
    · have h1 : k ∉ (docMatchList keywords_set
          (keywordLengths (sortLe strLe keywords_set.dedup))
          (standardize_text lemmatize p.full_text)).dedup := by
        simpa [List.mem_dedup] using hk
      simp [h1]
  · simp only [calculate_document_frequencies]
    calc ((df_papers.filter (fun p => p.published == y)).map
          (fun p =>
            if ((docMatchList keywords_set
                (keywordLengths (sortLe strLe keywords_set.dedup))
                (standardize_text lemmatize p.full_text)).dedup).contains k
            then 1 else 0)).sum
        ≤ ((df_papers.filter (fun p => p.published == y)).map
            (fun _ => 1)).sum := by
          apply List.sum_le_sum
          intro p _
          split <;> simp
      _ = (df_papers.filter (fun p => p.published == y)).length := by
          simp

/-- C6: the TF and DF tables have exactly one row per vocabulary keyword
(the sorted deduplicated vocabulary, with no row dropped) and one column
per given year, and a keyword that matches no document keeps an all-zero
row in both tables. -/
theorem C6_zero_fill (lemmatize : String → String) (df_papers : List Paper)
    (keywords_set : List String) (years : List Int) :
    (calculate_term_frequencies lemmatize df_papers keywords_set years).rows =
      sortLe strLe keywords_set.dedup ∧
    (calculate_document_frequencies lemmatize df_papers keywords_set years).rows =
      (calculate_term_frequencies lemmatize df_papers keywords_set years).rows ∧
    (calculate_term_frequencies lemmatize df_papers keywords_set years).rows.Nodup ∧
    (∀ k, k ∈ (calculate_term_frequencies lemmatize df_papers keywords_set years).rows
      ↔ k ∈ keywords_set) ∧
    (calculate_term_frequencies lemmatize df_papers keywords_set years).cols = years ∧
    (calculate_document_frequencies lemmatize df_papers keywords_set years).cols = years ∧
    (∀ k, (∀ p ∈ df_papers,
        k ∉ docMatchList keywords_set
              (keywordLengths (sortLe strLe keywords_set.dedup))
              (standardize_text lemmatize p.full_text)) →
      ∀ y, (calculate_term_frequencies lemmatize df_papers keywords_set years).cell k y = 0 ∧
        (calculate_document_frequencies lemmatize df_papers keywords_set years).cell k y = 0) := by
  refine ⟨rfl, rfl, nodup_sortLe _ _ (List.nodup_dedup _), ?_, rfl, rfl, ?_⟩
  · intro k
    rw [show (calculate_term_frequencies lemmatize df_papers keywords_set years).rows
        = sortLe strLe keywords_set.dedup from rfl]
    rw [mem_sortLe, List.mem_dedup]
  · intro k hk y
    constructor
    · simp only [calculate_term_frequencies]
      apply List.sum_eq_zero
      intro x hx
      rcases List.mem_map.mp hx with ⟨p, hp, hpx⟩
      rw [← hpx]
      exact List.count_eq_zero.mpr (hk p (List.mem_of_mem_filter hp))
    · simp only [calculate_document_frequencies]
      apply List.sum_eq_zero
      intro x hx
      rcases List.mem_map.mp hx with ⟨p, hp, hpx⟩
      rw [← hpx]
      have h1 : k ∉ (docMatchList keywords_set
          (keywordLengths (sortLe strLe keywords_set.dedup))
          (standardize_text lemmatize p.full_text)).dedup := by
        simpa [List.mem_dedup] using hk p (List.mem_of_mem_filter hp)
      simp [h1]

/-- Witness for C6 at a concrete input: an empty corpus with vocabulary
`{"b a"}` keeps the keyword's zero row. -/
theorem C6_zero_fill_witness :
    (calculate_term_frequencies (fun s => s) [] ["b a"] [2020]).cell "b a" 2020 = 0 ∧
    (calculate_document_frequencies (fun s => s) [] ["b a"] [2020]).cell "b a" 2020 = 0 :=
  (C6_zero_fill (fun s => s) [] ["b a"] [2020]).2.2.2.2.2.2 "b a" (by simp) 2020

/-- C1 (counterexample): `w = 0.025` is in the candidate list, and for
`N = 2` columns the time weight applied to the older column (1-based
position `j = 1 < N`) is `0.975 < 1` — it does not exceed `1.0` as the
claim states. -/
theorem C1_weight_counterexample :
    (0.025 : ℝ) ∈ W_VALUES_TO_TEST ∧
    timeWeight 0.025 2 1 = 0.975 ∧ ¬ (1 < timeWeight 0.025 2 1) := by
  refine ⟨by simp [W_VALUES_TO_TEST], by norm_num [timeWeight], by norm_num [timeWeight]⟩

/-- C1 (amended): the time weight applied by `calculate_dov` and
`calculate_dod` at 1-based column position `j` of `N` is `1 − w×(N−j)`;
it is exactly `1.0` for the most recent column (`j = N`) and is strictly
*less* than `1.0` for every older column (`j < N`), for every candidate
`w` (all of which are positive). -/
theorem C1_time_weight :
    (∀ w : ℝ, ∀ N : Nat, timeWeight w N N = 1) ∧
    (∀ w ∈ W_VALUES_TO_TEST, (0 : ℝ) < w) ∧
    (∀ w ∈ W_VALUES_TO_TEST, ∀ N j : Nat, 1 ≤ j → j < N → timeWeight w N j < 1) ∧
    (∀ (tf_df : RTable) (doc_counts : Int → ℝ) (w : ℝ) (i j : Nat),
      doc_counts (tf_df.cols.getD j 0) ≠ 0 →
        (calculate_dov tf_df doc_counts w).cell i j =
          (tf_df.cell i j / doc_counts (tf_df.cols.getD j 0)) *
            timeWeight w tf_df.cols.length (j + 1) ∧
        (calculate_dod tf_df doc_counts w).cell i j =
          (tf_df.cell i j / doc_counts (tf_df.cols.getD j 0)) *
            timeWeight w tf_df.cols.length (j + 1)) := by
  have hpos : ∀ w ∈ W_VALUES_TO_TEST, (0 : ℝ) < w := by
    intro w hw
    simp only [W_VALUES_TO_TEST, List.mem_cons, List.not_mem_nil, or_false] at hw
    rcases hw with h | h | h | h <;> rw [h] <;> norm_num
  refine ⟨?_, hpos, ?_, ?_⟩
  · intro w N
    simp [timeWeight]
  · intro w hw N j _ hj
    have hw0 := hpos w hw
    have hNj : (0 : ℝ) < (N : ℝ) - (j : ℝ) := by
      have : (j : ℝ) < (N : ℝ) := by exact_mod_cast hj
      linarith
    have : 0 < w * ((N : ℝ) - (j : ℝ)) := mul_pos hw0 hNj
    simp only [timeWeight]
    linarith
  · intro tf_df doc_counts w i j hNj
    constructor
    · show (if doc_counts (tf_df.cols.getD j 0) = 0 then (0 : ℝ)
          else (tf_df.cell i j / doc_counts (tf_df.cols.getD j 0)) *
            timeWeight w tf_df.cols.length (j + 1)) = _
      rw [if_neg hNj]
    · show (if doc_counts (tf_df.cols.getD j 0) = 0 then (0 : ℝ)
          else (tf_df.cell i j / doc_counts (tf_df.cols.getD j 0)) *
            timeWeight w tf_df.cols.length (j + 1)) = _
      rw [if_neg hNj]

/-- Witness for C1 at a concrete input: with `w = 0.025` and `N = 3`, the
oldest column's weight is below `1`. -/
theorem C1_time_weight_witness : timeWeight (0.025 : ℝ) 3 1 < 1 :=
  C1_time_weight.2.2.1 0.025 (by simp [W_VALUES_TO_TEST]) 3 1 (by norm_num)
    (by norm_num)

/-- C8: a year column whose document count is zero is forced to exactly 0
for every keyword in both `calculate_dov` and `calculate_dod` (the total
embedding shows no division is attempted there), and a year with a nonzero
document count gets `(count / docs) × time_weight`. -/
theorem C8_zero_doc_year (tf_df : RTable) (doc_counts : Int → ℝ) (w : ℝ)
    (i j : Nat) :
    (doc_counts (tf_df.cols.getD j 0) = 0 →
      (calculate_dov tf_df doc_counts w).cell i j = 0 ∧
      (calculate_dod tf_df doc_counts w).cell i j = 0) ∧
    (doc_counts (tf_df.cols.getD j 0) ≠ 0 →
      (calculate_dov tf_df doc_counts w).cell i j =
        (tf_df.cell i j / doc_counts (tf_df.cols.getD j 0)) *
          timeWeight w tf_df.cols.length (j + 1) ∧
      (calculate_dod tf_df doc_counts w).cell i j =
        (tf_df.cell i j / doc_counts (tf_df.cols.getD j 0)) *
          timeWeight w tf_df.cols.length (j + 1)) := by
  constructor
  · intro h0
    constructor
    · show (if doc_counts (tf_df.cols.getD j 0) = 0 then (0 : ℝ)
          else (tf_df.cell i j / doc_counts (tf_df.cols.getD j 0)) *
            timeWeight w tf_df.cols.length (j + 1)) = 0
      rw [if_pos h0]
    · show (if doc_counts (tf_df.cols.getD j 0) = 0 then (0 : ℝ)
          else (tf_df.cell i j / doc_counts (tf_df.cols.getD j 0)) *
            timeWeight w tf_df.cols.length (j + 1)) = 0
      rw [if_pos h0]
  · intro hNj
    constructor
    · show (if doc_counts (tf_df.cols.getD j 0) = 0 then (0 : ℝ)
          else (tf_df.cell i j / doc_counts (tf_df.cols.getD j 0)) *
            timeWeight w tf_df.cols.length (j + 1)) = _
      rw [if_neg hNj]
    · show (if doc_counts (tf_df.cols.getD j 0) = 0 then (0 : ℝ)
          else (tf_df.cell i j / doc_counts (tf_df.cols.getD j 0)) *
            timeWeight w tf_df.cols.length (j + 1)) = _
      rw [if_neg hNj]

/-- Witness for C8 at a concrete input: `dcW` gives year 2020 zero
documents and year 2021 two documents. -/
theorem C8_zero_doc_year_witness :
    (calculate_dov tfW dcW 0.025).cell 0 0 = 0 ∧
    (calculate_dov tfW dcW 0.025).cell 0 1 =
      (tfW.cell 0 1 / dcW (tfW.cols.getD 1 0)) *
        timeWeight 0.025 tfW.cols.length 2 :=
  ⟨((C8_zero_doc_year tfW dcW 0.025 0 0).1 (by norm_num [tfW, dcW])).1,
   ((C8_zero_doc_year tfW dcW 0.025 0 1).2 (by norm_num [tfW, dcW])).1⟩

/-- C9: every row of the high-impact report is a row of the all-validated
report (the high-impact filter runs on `df_all_validated`), and membership
in the high-impact report is exactly all-validated membership plus a
`"Weak Signal"`/`"Strong Signal"` verdict in at least one period. -/
theorem C9_high_impact_subset (df_final : List SignalRow) (r : SignalRow) :
    (r ∈ df_high_impact df_final → r ∈ df_all_validated df_final) ∧
    (r ∈ df_high_impact df_final ↔ r ∈ df_all_validated df_final ∧
      (high_impact_statuses.contains r.validated_signal_P1 ||
       high_impact_statuses.contains r.validated_signal_P2 ||
       high_impact_statuses.contains r.validated_signal_P3) = true) := by
  constructor
  · intro h
    exact List.mem_of_mem_filter h
  · exact List.mem_filter

/-- Witness for C9 at a concrete input: a row with a `"Weak Signal"`
verdict in period P1 is in the high-impact report, hence in the
all-validated report. -/
theorem C9_high_impact_subset_witness : rowW ∈ df_all_validated [rowW] :=
  (C9_high_impact_subset [rowW] rowW).1 (by decide)

/-- Characterization of the strict-max selection fold used by
`find_optimal_w`: either no element beats the initial running maximum and
the state is unchanged, or the final state holds the *first* element
attaining the maximum (a later element with an equal score never replaces
it, because the comparison is strict). -/
theorem foldl_strict_max {α γ : Type} (f : α → ℝ) (g : α → γ) :
    ∀ (l : List α) (st : Option α × ℝ × Option γ),
      ((∀ x ∈ l, f x ≤ st.2.1) ∧
        l.foldl (fun s w => if f w > s.2.1 then (some w, f w, some (g w)) else s)
          st = st) ∨
      (∃ i : Fin l.length,
        st.2.1 < f (l.get i) ∧
        (∀ j : Fin l.length, f (l.get j) ≤ f (l.get i)) ∧
        (∀ j : Fin l.length, j.1 < i.1 → f (l.get j) < f (l.get i)) ∧
        l.foldl (fun s w => if f w > s.2.1 then (some w, f w, some (g w)) else s)
          st = (some (l.get i), f (l.get i), some (g (l.get i)))) := by
  intro l
  induction l with
  | nil =>
    intro st
    exact Or.inl ⟨by intro x hx; simp at hx, rfl⟩
  | cons x xs ih =>
    intro st
    rw [List.foldl_cons]
    by_cases hx : f x > st.2.1
    · rw [if_pos hx]
      rcases ih (some x, f x, some (g x)) with ⟨hall, heq⟩ | ⟨i, hi1, hi2, hi3, heq⟩
      · refine Or.inr ⟨⟨0, Nat.succ_pos _⟩, hx, ?_, ?_, heq⟩
        · intro j
          rcases j with ⟨j, hj⟩
          cases j with
          | zero => exact le_refl _
          | succ j' =>
            have h1 := hall (xs.get ⟨j', Nat.lt_of_succ_lt_succ hj⟩)
              (xs.get_mem _ _)
            exact h1
        · intro j hj0
          exact absurd hj0 (Nat.not_lt_zero _)
      · refine Or.inr ⟨⟨i.1 + 1, Nat.succ_lt_succ i.2⟩, lt_trans hx hi1, ?_, ?_, heq⟩
        · intro j
          rcases j with ⟨j, hj⟩
          cases j with
          | zero => exact le_of_lt hi1
          | succ j' => exact hi2 ⟨j', Nat.lt_of_succ_lt_succ hj⟩
        · intro j hjlt
          rcases j with ⟨j, hj⟩
          cases j with
          | zero => exact hi1
          | succ j' =>
            exact hi3 ⟨j', Nat.lt_of_succ_lt_succ hj⟩ (Nat.lt_of_succ_lt_succ hjlt)
    · rw [if_neg hx]
      have hxle : f x ≤ st.2.1 := not_lt.mp hx
      rcases ih st with ⟨hall, heq⟩ | ⟨i, hi1, hi2, hi3, heq⟩
      · refine Or.inl ⟨?_, heq⟩
        intro y hy
        rcases List.mem_cons.mp hy with h | h
        · rw [h]; exact hxle
        · exact hall y h
      · refine Or.inr ⟨⟨i.1 + 1, Nat.succ_lt_succ i.2⟩, hi1, ?_, ?_, heq⟩
        · intro j
          rcases j with ⟨j, hj⟩
          cases j with
          | zero => exact le_trans hxle (le_of_lt hi1)
          | succ j' => exact hi2 ⟨j', Nat.lt_of_succ_lt_succ hj⟩
        · intro j hjlt
          rcases j with ⟨j, hj⟩
          cases j with
          | zero => exact lt_of_le_of_lt hxle hi1
          | succ j' =>
            exact hi3 ⟨j', Nat.lt_of_succ_lt_succ hj⟩ (Nat.lt_of_succ_lt_succ hjlt)

/-- C5: on a non-empty candidate list, `find_optimal_w` is deterministic
and returns the first candidate (in list order) whose per-keyword
geometric-mean growth rates have the largest population standard
deviation: every other candidate scores no higher, and every *earlier*
candidate scores strictly lower (an equal later score never replaces an
earlier maximum), together with that candidate's DoV table. -/
theorem C5_optimizer_first_max (tf_df : RTable) (doc_counts : Int → ℝ)
    (w_values : List ℝ) (hne : w_values ≠ []) :
    (find_optimal_w tf_df doc_counts w_values =
      find_optimal_w tf_df doc_counts w_values) ∧
    ∃ i : Fin w_values.length,
      find_optimal_w tf_df doc_counts w_values =
        (some (w_values.get i),
          some (calculate_dov tf_df doc_counts (w_values.get i))) ∧
      (∀ j : Fin w_values.length,
        npStd (growth_rates (calculate_dov tf_df doc_counts (w_values.get j))) ≤
          npStd (growth_rates (calculate_dov tf_df doc_counts (w_values.get i)))) ∧
      (∀ j : Fin w_values.length, j.1 < i.1 →
        npStd (growth_rates (calculate_dov tf_df doc_counts (w_values.get j))) <
          npStd (growth_rates (calculate_dov tf_df doc_counts (w_values.get i)))) := by
  refine ⟨rfl, ?_⟩
  have h := foldl_strict_max
    (fun w => npStd (growth_rates (calculate_dov tf_df doc_counts w)))
    (fun w => calculate_dov tf_df doc_counts w)
    w_values (none, -1, none)
  rcases h with ⟨hall, _⟩ | ⟨i, _, hi2, hi3, heq⟩
  · exfalso
    rcases w_values with _ | ⟨x, xs⟩
    · exact hne rfl
    · have h1 := hall x (List.mem_cons_self x xs)
      have h2 : (0 : ℝ) ≤ npStd (growth_rates (calculate_dov tf_df doc_counts x)) := by
        unfold npStd
        exact Real.sqrt_nonneg _
      simp only at h1
      linarith
  · refine ⟨i, ?_, hi2, hi3⟩
    exact congrArg (fun r => (r.1, r.2.2)) heq

/-- Witness for C5 at a concrete input: the singleton candidate list
`[0.025]` on the concrete table `tfW`. -/
theorem C5_optimizer_first_max_witness :
    ∃ i : Fin ([(0.025 : ℝ)].length),
      find_optimal_w tfW dcW [0.025] =
        (some ([(0.025 : ℝ)].get i),
          some (calculate_dov tfW dcW ([(0.025 : ℝ)].get i))) ∧
      (∀ j : Fin ([(0.025 : ℝ)].length),
        npStd (growth_rates (calculate_dov tfW dcW ([(0.025 : ℝ)].get j))) ≤
          npStd (growth_rates (calculate_dov tfW dcW ([(0.025 : ℝ)].get i)))) ∧
      (∀ j : Fin ([(0.025 : ℝ)].length), j.1 < i.1 →
        npStd (growth_rates (calculate_dov tfW dcW ([(0.025 : ℝ)].get j))) <
          npStd (growth_rates (calculate_dov tfW dcW ([(0.025 : ℝ)].get i)))) :=
  (C5_optimizer_first_max tfW dcW [0.025] (by simp)).2

/-- Membership in `pandas.Index.union`. -/
theorem mem_indexUnion (a b : List String) (k : String) :
    k ∈ indexUnion a b ↔ k ∈ a ∨ k ∈ b := by
  simp [indexUnion, mem_sortLe, List.mem_dedup]

/-- Membership in the folded union of all period indices. -/
theorem mem_foldl_indexUnion (l : List (String × PeriodMap)) :
    ∀ (acc : List String) (k : String),
      k ∈ l.foldl (fun acc p => indexUnion acc p.2.index) acc ↔
        k ∈ acc ∨ ∃ p ∈ l, k ∈ p.2.index := by
  induction l with
  | nil => intro acc k; simp
  | cons q l ih =>
    intro acc k
    rw [List.foldl_cons, ih, mem_indexUnion]
    constructor
    · rintro (⟨h | h⟩ | ⟨p, hp, hk⟩)
      · exact Or.inl h
      · exact Or.inr ⟨q, List.mem_cons_self q l, h⟩
      · exact Or.inr ⟨p, List.mem_cons_of_mem q hp, hk⟩
    · rintro (h | ⟨p, hp, hk⟩)
      · exact Or.inl (Or.inl h)
      · rcases List.mem_cons.mp hp with h1 | h1
        · exact Or.inl (Or.inr (h1 ▸ hk))
        · exact Or.inr ⟨p, h1, hk⟩

/-- Lookup lemma: `List.find?` on a list whose images under `f` are distinct returns the
unique element with the sought image. -/
theorem find?_map_nodup {α : Type} (f : α → String) (l : List α) (a : α)
    (t : String) (hnd : (l.map f).Nodup) (ha : a ∈ l) (hfa : f a = t) :
    l.find? (fun x => f x == t) = some a := by
  induction l with
  | nil => exact absurd ha (List.not_mem_nil a)
  | cons b l ih =>
    rcases List.mem_cons.mp ha with h | h
    · subst h
      rw [List.find?_cons]
      simp [hfa]
    · have hnd1 : (l.map f).Nodup := (List.nodup_cons.mp hnd).2
      have hfb : f b ≠ t := by
        intro hbt
        have h2 : f a ∈ l.map f := List.mem_map_of_mem f h
        rw [hfa, ← hbt] at h2
        exact (List.nodup_cons.mp hnd).1 h2
      have hfb' : (f b == t) = false := by simp [hfb]
      rw [List.find?_cons, hfb']
      exact ih hnd1 h

/-- C7: the evolution table's row index is the union of all per-period
keyword indices, and a keyword present in period `P`'s map but absent from
period `Q`'s map gets `P`'s category in `P`'s column and the sentinel
`"Not Present"` in `Q`'s column (given that the per-period column names
are distinct, as `category_P1`/`category_P2`/`category_P3` are). -/
theorem C7_evolution_union (all_period_data : List (String × PeriodMap))
    (period_short_names : String → String) (pre P Q : String)
    (pm qm : PeriodMap) (K : String)
    (hnd : (all_period_data.map
      (fun p => pre ++ "_" ++ period_short_names p.1)).Nodup)
    (hP : (P, pm) ∈ all_period_data) (hQ : (Q, qm) ∈ all_period_data)
    (hKP : K ∈ pm.index) (hKQ : K ∉ qm.index) :
    (∀ k, k ∈ (create_evolution_file all_period_data period_short_names pre).index
      ↔ ∃ p ∈ all_period_data, k ∈ p.2.index) ∧
    K ∈ (create_evolution_file all_period_data period_short_names pre).index ∧
    (create_evolution_file all_period_data period_short_names pre).cell K
      (pre ++ "_" ++ period_short_names P) = pm.category K ∧
    (create_evolution_file all_period_data period_short_names pre).cell K
      (pre ++ "_" ++ period_short_names Q) = "Not Present" := by
  have hidx : ∀ k,
      k ∈ (create_evolution_file all_period_data period_short_names pre).index
        ↔ ∃ p ∈ all_period_data, k ∈ p.2.index := by
    intro k
    simp only [create_evolution_file]
    rw [mem_foldl_indexUnion]
    simp
  have hfindP :
      all_period_data.find?
        (fun p => pre ++ "_" ++ period_short_names p.1 ==
          pre ++ "_" ++ period_short_names P) = some (P, pm) :=
    find?_map_nodup (fun p => pre ++ "_" ++ period_short_names p.1)
      all_period_data (P, pm) _ hnd hP rfl
  have hfindQ :
      all_period_data.find?
        (fun p => pre ++ "_" ++ period_short_names p.1 ==
          pre ++ "_" ++ period_short_names Q) = some (Q, qm) :=
    find?_map_nodup (fun p => pre ++ "_" ++ period_short_names p.1)
      all_period_data (Q, qm) _ hnd hQ rfl
  refine ⟨hidx, (hidx K).mpr ⟨(P, pm), hP, hKP⟩, ?_, ?_⟩
  · simp only [create_evolution_file]
    rw [hfindP]
    simp [hKP]
  · simp only [create_evolution_file]
    rw [hfindQ]
    simp [hKQ]

/-- Witness for C7 at a concrete input: two periods with disjoint
singleton indices. -/
theorem C7_evolution_union_witness :
    "alpha" ∈ (create_evolution_file evolDataW (fun s => s) "category").index ∧
    (create_evolution_file evolDataW (fun s => s) "category").cell
      "alpha" "category_P1" = "Weak Signal" ∧
    (create_evolution_file evolDataW (fun s => s) "category").cell
      "alpha" "category_P2" = "Not Present" := by
  have h := C7_evolution_union evolDataW (fun s => s) "category" "P1" "P2"
    pmW1 pmW2 "alpha" (by decide)
    (List.mem_cons_self _ _)
    (List.mem_cons_of_mem _ (List.mem_cons_self _ _))
    (by decide) (by decide)
  exact ⟨h.2.1, h.2.2.1, h.2.2.2⟩

/-- Idempotence of `astype(int)` on one label. -/
theorem astypeInt_idem (l : Lbl) : astypeInt (astypeInt l) = astypeInt l := by
  cases l <;> rfl

/-- Frame components of the period-loop fold: the row index and the cell
values of both threaded DataFrames never change, and after at least one
iteration the column labels are the `astype(int)` image of the originals. -/
theorem foldl_signal_map_frames (periods : List (String × Int × Int)) :
    ∀ st,
      ((periods.foldl generate_signal_map_step st).2.1.index = st.2.1.index ∧
        (periods.foldl generate_signal_map_step st).2.1.cell = st.2.1.cell ∧
        (periods.foldl generate_signal_map_step st).2.2.index = st.2.2.index ∧
        (periods.foldl generate_signal_map_step st).2.2.cell = st.2.2.cell) ∧
      (periods = [] ∨
        ((periods.foldl generate_signal_map_step st).2.1.cols =
            st.2.1.cols.map astypeInt ∧
          (periods.foldl generate_signal_map_step st).2.2.cols =
            st.2.2.cols.map astypeInt)) := by
  induction periods with
  | nil => intro st; exact ⟨⟨rfl, rfl, rfl, rfl⟩, Or.inl rfl⟩
  | cons p ps ih =>
    intro st
    rw [List.foldl_cons]
    rcases ih (generate_signal_map_step st p) with ⟨⟨h1, h2, h3, h4⟩, hcols⟩
    have hs1 : (generate_signal_map_step st p).2.1.index = st.2.1.index := rfl
    have hs2 : (generate_signal_map_step st p).2.1.cell = st.2.1.cell := rfl
    have hs3 : (generate_signal_map_step st p).2.2.index = st.2.2.index := rfl
    have hs4 : (generate_signal_map_step st p).2.2.cell = st.2.2.cell := rfl
    have hc1 : (generate_signal_map_step st p).2.1.cols =
        st.2.1.cols.map astypeInt := rfl
    have hc2 : (generate_signal_map_step st p).2.2.cols =
        st.2.2.cols.map astypeInt := rfl
    refine ⟨⟨h1.trans hs1, h2.trans hs2, h3.trans hs3, h4.trans hs4⟩, Or.inr ?_⟩
    rcases hcols with hnil | ⟨hx, hy⟩
    · subst hnil
      exact ⟨hc1, hc2⟩
    · constructor
      · rw [hx, hc1, List.map_map]
        exact List.map_congr_left (fun x _ => astypeInt_idem x)
      · rw [hy, hc2, List.map_map]
        exact List.map_congr_left (fun x _ => astypeInt_idem x)

/-- C10 (counterexample): `generate_signal_map_data` does *not* leave the
column labels of its input x-source table unmodified — with one period and
string year labels, the post-call state of `df_x` carries integer labels. -/
theorem C10_mutation_counterexample :
    (generate_signal_map_data dfxW dfyW periodsW).2.1.cols ≠ dfxW.cols ∧
    (generate_signal_map_data dfxW dfyW periodsW).2.1.cols =
      [Lbl.int (("2010".trim.toInt?).getD 0)] ∧
    dfxW.cols = [Lbl.str "2010"] := by
  have h : (generate_signal_map_data dfxW dfyW periodsW).2.1.cols =
      [Lbl.int (("2010".trim.toInt?).getD 0)] := rfl
  refine ⟨?_, h, rfl⟩
  rw [h, show dfxW.cols = [Lbl.str "2010"] from rfl]
  intro heq
  simp only [List.cons.injEq, and_true] at heq
  exact Lbl.noConfusion heq

/-- C10 (amended): every embedded pipeline stage is a deterministic pure
function of its inputs (identical inputs give identical outputs), and
`generate_signal_map_data` leaves the cell values and the row index of
both input tables unchanged — but it *reassigns both inputs' column
labels* to their integer conversions whenever at least one period is
processed. -/
theorem C10_determinism_and_frames :
    (∀ (df_x df_y : PFrame) (periods : List (String × Int × Int)),
      generate_signal_map_data df_x df_y periods =
        generate_signal_map_data df_x df_y periods ∧
      (generate_signal_map_data df_x df_y periods).2.1.index = df_x.index ∧
      (generate_signal_map_data df_x df_y periods).2.1.cell = df_x.cell ∧
      (generate_signal_map_data df_x df_y periods).2.2.index = df_y.index ∧
      (generate_signal_map_data df_x df_y periods).2.2.cell = df_y.cell ∧
      (periods ≠ [] →
        (generate_signal_map_data df_x df_y periods).2.1.cols =
          df_x.cols.map astypeInt ∧
        (generate_signal_map_data df_x df_y periods).2.2.cols =
          df_y.cols.map astypeInt)) ∧
    (∀ (lemmatize : String → String) (df_papers : List Paper)
        (keywords_set : List String) (years : List Int),
      calculate_term_frequencies lemmatize df_papers keywords_set years =
        calculate_term_frequencies lemmatize df_papers keywords_set years ∧
      calculate_document_frequencies lemmatize df_papers keywords_set years =
        calculate_document_frequencies lemmatize df_papers keywords_set years) ∧
    (∀ (t : RTable) (doc_counts : Int → ℝ) (w : ℝ),
      calculate_dov t doc_counts w = calculate_dov t doc_counts w ∧
      calculate_dod t doc_counts w = calculate_dod t doc_counts w ∧
      find_optimal_w t doc_counts [w] = find_optimal_w t doc_counts [w]) ∧
    (∀ (all_period_data : List (String × PeriodMap))
        (period_short_names : String → String) (pre : String),
      create_evolution_file all_period_data period_short_names pre =
        create_evolution_file all_period_data period_short_names pre) ∧
    (∀ kem kim : String,
      validated_signal_cell kem kim = validated_signal_cell kem kim) := by
  refine ⟨?_, fun _ _ _ _ => ⟨rfl, rfl⟩, fun _ _ _ => ⟨rfl, rfl, rfl⟩,
    fun _ _ _ => rfl, fun _ _ => rfl⟩
  intro df_x df_y periods
  rcases foldl_signal_map_frames periods (([], []), df_x, df_y) with
    ⟨⟨h1, h2, h3, h4⟩, hcols⟩
  refine ⟨rfl, h1, h2, h3, h4, ?_⟩
  intro hne
  rcases hcols with hnil | hc
  · exact absurd hnil hne
  · exact hc

/-- Witness for C10 at a concrete input: with one period, the x-source's
string column label `"2010"` comes back as the integer label `2010`. -/
theorem C10_determinism_and_frames_witness :
    (generate_signal_map_data dfxW dfyW periodsW).2.1.cols =
      dfxW.cols.map astypeInt :=
  ((C10_determinism_and_frames.1 dfxW dfyW periodsW).2.2.2.2.2
    (by decide)).1
